import Mathlib

/-!
Shallow embedding of the AsyncListener execution-context tracker
(joyent/node-tracing, source file `lib` part 000).

Modelling conventions:

* JavaScript numbers that the source uses exclusively as 32-bit bit
  patterns (provider bits, watch masks, callback-flag masks) are `Nat`
  values below `2 ^ 32`.  The source's `NEXTTICK` provider has the JS
  value `-1`; every use of it in the source is through the bitwise
  operators `&` / `|`, which coerce through two's-complement int32, so
  `-1` behaves exactly as the bit pattern `0xFFFFFFFF`.  We represent it
  by that pattern, and all `(a & b) === 0` tests coincide.
* The sparse array `_asyncData` is an association list from listener uid
  to value; an absent key reads as the JS value `undefined`
  (`JSVal.undef`).  Writing `undefined` to a key is how the source
  clears a slot, and lookup treats both identically, as the source's
  `=== undefined` checks do.
* User callbacks are Lean functions.  The `create` callback receives
  `(data, providerType)`, the `before`/`after` callbacks receive the
  per-context storage value (the context argument the source also
  passes is elided: the tracker never inspects the callbacks' use of
  it), and the `error` callback receives `(storage, err)` and may
  throw, modelled by `Except Unit JSVal`.
* Which callbacks fired, and the `process.emit('exit', 1)` in the
  error path, are recorded in an event log returned beside the state.
-/

/-- A JavaScript value as far as the tracker distinguishes them. -/
inductive JSVal where
  | undef : JSVal
  | null : JSVal
  | bool : Bool → JSVal
  | num : Int → JSVal
  | str : String → JSVal
deriving DecidableEq, Repr

/-- JavaScript truthiness for the values above. -/
def JSVal.truthy : JSVal → Bool
  | .undef => false
  | .null => false
  | .bool b => b
  | .num n => n != 0
  | .str s => s != r""

/-- Lookup in a sparse array (`data[uid]`); an absent key reads as
`undefined`. -/
def dataGet : List (Nat × JSVal) → Nat → JSVal
  | [], _ => JSVal.undef
  | (k, v) :: rest, u => if k = u then v else dataGet rest u

/-- Assignment `data[uid] = v` on a sparse array. -/
def dataSet (d : List (Nat × JSVal)) (u : Nat) (v : JSVal) : List (Nat × JSVal) :=
  (u, v) :: d

/- Callback-presence flags, as in the source. -/

def HAS_NONE_AL : Nat := 0

def HAS_CREATE_AL : Nat := 1

def HAS_BEFORE_AL : Nat := 2

def HAS_AFTER_AL : Nat := 4

def HAS_ERROR_AL : Nat := 8

/- The ASYNC_PROVIDERS table.  NEXTTICK is `-1` in the source; see the
module comment for why it is represented by its uint32 bit pattern. -/

def ASYNC_PROVIDERS_NEXTTICK : Nat := 4294967295

def ASYNC_PROVIDERS_NONE : Nat := 0

def ASYNC_PROVIDERS_CRYPTO : Nat := 1

def ASYNC_PROVIDERS_FSEVENT : Nat := 2

def ASYNC_PROVIDERS_FS : Nat := 4

def ASYNC_PROVIDERS_GETADDRINFO : Nat := 8

def ASYNC_PROVIDERS_PIPE : Nat := 16

def ASYNC_PROVIDERS_PROCESS : Nat := 32

def ASYNC_PROVIDERS_QUERY : Nat := 64

def ASYNC_PROVIDERS_SHUTDOWN : Nat := 128

def ASYNC_PROVIDERS_SIGNAL : Nat := 256

def ASYNC_PROVIDERS_STATWATCHER : Nat := 512

def ASYNC_PROVIDERS_TCP : Nat := 1024

def ASYNC_PROVIDERS_TIMER : Nat := 2048

def ASYNC_PROVIDERS_TLS : Nat := 4096

def ASYNC_PROVIDERS_TTY : Nat := 8192

def ASYNC_PROVIDERS_UDP : Nat := 16384

def ASYNC_PROVIDERS_ZLIB : Nat := 32768

/-- The `PROVIDER_MAP` value-to-name lookup; an unknown provider value
reads as `undefined`, as a missing JS object key does. -/
def PROVIDER_MAP (p : Nat) : JSVal :=
  if p = ASYNC_PROVIDERS_NEXTTICK then JSVal.str (r"NEXTTICK") else
  if p = ASYNC_PROVIDERS_NONE then JSVal.str (r"NONE") else
  if p = ASYNC_PROVIDERS_CRYPTO then JSVal.str (r"CRYPTO") else
  if p = ASYNC_PROVIDERS_FSEVENT then JSVal.str (r"FSEVENT") else
  if p = ASYNC_PROVIDERS_FS then JSVal.str (r"FS") else
  if p = ASYNC_PROVIDERS_GETADDRINFO then JSVal.str (r"GETADDRINFO") else
  if p = ASYNC_PROVIDERS_PIPE then JSVal.str (r"PIPE") else
  if p = ASYNC_PROVIDERS_PROCESS then JSVal.str (r"PROCESS") else
  if p = ASYNC_PROVIDERS_QUERY then JSVal.str (r"QUERY") else
  if p = ASYNC_PROVIDERS_SHUTDOWN then JSVal.str (r"SHUTDOWN") else
  if p = ASYNC_PROVIDERS_SIGNAL then JSVal.str (r"SIGNAL") else
  if p = ASYNC_PROVIDERS_STATWATCHER then JSVal.str (r"STATWATCHER") else
  if p = ASYNC_PROVIDERS_TCP then JSVal.str (r"TCP") else
  if p = ASYNC_PROVIDERS_TIMER then JSVal.str (r"TIMER") else
  if p = ASYNC_PROVIDERS_TLS then JSVal.str (r"TLS") else
  if p = ASYNC_PROVIDERS_TTY then JSVal.str (r"TTY") else
  if p = ASYNC_PROVIDERS_UDP then JSVal.str (r"UDP") else
  if p = ASYNC_PROVIDERS_ZLIB then JSVal.str (r"ZLIB") else
  JSVal.undef

/-- The callbacks object passed to the `AsyncListener` constructor; a
`none` field is a missing (or non-function) callback. -/
structure Callbacks where
  create : Option (JSVal → JSVal → JSVal) := none
  before : Option (JSVal → JSVal) := none
  after : Option (JSVal → JSVal) := none
  error : Option (JSVal → JSVal → Except Unit JSVal) := none

/-- An `AsyncListener` instance.  The four callback fields are total
functions; the source's prototype defaults each to `undefined` and the
tracker only ever invokes a callback after checking the corresponding
`callback_flags` bit, so a default function standing in for an absent
callback is never reached. -/
structure AsyncListener where
  uid : Nat
  create : JSVal → JSVal → JSVal
  before : JSVal → JSVal
  after : JSVal → JSVal
  error : JSVal → JSVal → Except Unit JSVal
  data : JSVal
  watched_providers : Nat
  callback_flags : Nat

/-- The `AsyncListener` constructor.  The caller threads `uid` (the
source increments the module-global `alUid`).  `data === undefined`
defaults to `null`; an omitted provider mask defaults to `0xfffffff`,
and a given one is coerced to uint32 (`provider >>> 0`). -/
def mkAsyncListener (cbs : Callbacks) (d : JSVal) (provider : Option Nat) (uid : Nat) :
    AsyncListener :=
  { uid := uid
    create := cbs.create.getD (fun _ _ => JSVal.undef)
    before := cbs.before.getD (fun _ => JSVal.undef)
    after := cbs.after.getD (fun _ => JSVal.undef)
    error := cbs.error.getD (fun _ _ => Except.ok JSVal.undef)
    data := if d = JSVal.undef then JSVal.null else d
    watched_providers := match provider with
      | none => 0xfffffff
      | some p => p % 4294967296
    callback_flags :=
      Nat.lor (Nat.lor (if cbs.create.isSome then HAS_CREATE_AL else 0)
                       (if cbs.before.isSome then HAS_BEFORE_AL else 0))
              (Nat.lor (if cbs.after.isSome then HAS_AFTER_AL else 0)
                       (if cbs.error.isSome then HAS_ERROR_AL else 0)) }

/-- A context: the `_async*` properties the tracker stores on the
objects it manages.  `_asyncQueue = none` models an object that never
went through `runAsyncQueue` and so has no `_asyncQueue` property at
all (the source distinguishes this from a present-but-empty queue). -/
structure Context where
  _asyncData : List (Nat × JSVal)
  _asyncQueue : Option (List AsyncListener)
  _asyncWatchedProviders : Nat
  _asyncProvider : Nat
  _asyncCallbackFlags : Nat

/-- The listener queue, defaulting to empty when the property is
absent.  Every context that can become active has a present queue. -/
def Context.queueD (c : Context) : List AsyncListener :=
  c._asyncQueue.getD []

/-- The three-slot Status Word (`asyncFlags`) shared with the native
side; field names follow the source's index constants. -/
structure StatusWord where
  kActiveAsyncContext : Nat
  kActiveAsyncQueueLength : Nat
  kWatchedProviders : Nat
deriving DecidableEq, Repr

/-- The Status Word contents mirroring a given context, as written by
`loadContext` / `unloadContext`. -/
def statusOf (c : Context) : StatusWord :=
  { kActiveAsyncContext := c._asyncProvider
    kActiveAsyncQueueLength := c.queueD.length
    kWatchedProviders := c._asyncWatchedProviders }

/-- The tracker's module-global mutable state. -/
structure GlobalState where
  contextStack : List Context
  activeContext : Context
  asyncFlags : StatusWord
  inAsyncTick : Bool
  inErrorTick : Bool
  exiting : Bool

/-- The fresh global context built by `resetGlobalContext`. -/
def globalContext : Context :=
  { _asyncData := []
    _asyncQueue := some []
    _asyncWatchedProviders := ASYNC_PROVIDERS_NONE
    _asyncProvider := 0
    _asyncCallbackFlags := HAS_NONE_AL }

/-- Modelled from the spec: the Status Word is a fixed three-slot
shared-memory region zero-initialized by the native collaborator (the
`setupAsyncListener` binding that backs the `asyncFlags` object is not
part of this repository's JS source).  The rest of the initial state is
the module initialization of the source. -/
def initialState : GlobalState :=
  { contextStack := []
    activeContext := globalContext
    asyncFlags := { kActiveAsyncContext := 0, kActiveAsyncQueueLength := 0,
                    kWatchedProviders := 0 }
    inAsyncTick := false
    inErrorTick := false
    exiting := false }

/-- Observable callback invocations and process-level effects. -/
inductive Event where
  | createEv : Nat → Event
  | beforeEv : Nat → Event
  | afterEv : Nat → Event
  | errorEv : Nat → Event
  | exitEmit : Nat → Event
deriving DecidableEq, Repr

/-- One iteration of the `runAsyncQueue` loop: push the listener onto
the new context's queue, accumulate its watch mask, and fill its
storage slot, invoking `create` when the listener has one and the
provider matches its mask. -/
def runStep (provider : Nat) (acc : Context × List Event) (item : AsyncListener) :
    Context × List Event :=
  let c := acc.1
  let c1 := { c with
    _asyncQueue := some (c.queueD ++ [item])
    _asyncWatchedProviders := Nat.lor c._asyncWatchedProviders item.watched_providers }
  if Nat.land item.callback_flags HAS_CREATE_AL = 0 ∨
     Nat.land provider item.watched_providers = 0 then
    ({ c1 with _asyncData := dataSet c1._asyncData item.uid item.data }, acc.2)
  else
    let value := item.create item.data (PROVIDER_MAP provider)
    let stored := if value = JSVal.undef then item.data else value
    ({ c1 with _asyncData := dataSet c1._asyncData item.uid stored },
     acc.2 ++ [Event.createEv item.uid])

/-- `runAsyncQueue(ctx, provider)`.  Every `_async*` field of the
incoming object is overwritten, so the result context is built fresh.
`none` is the `process.abort()` path taken when the active context's
queue is empty.  The body sets `inAsyncTick` to `true` for the loop and
back to `false` after it, so the net state change is
`inAsyncTick := false`. -/
def runAsyncQueue (s : GlobalState) (provider : Nat) :
    Option (GlobalState × Context × List Event) :=
  let acQueue := s.activeContext.queueD
  if acQueue.length = 0 then none
  else
    let c0 : Context :=
      { _asyncData := []
        _asyncQueue := some []
        _asyncProvider := provider
        _asyncCallbackFlags := s.activeContext._asyncCallbackFlags
        _asyncWatchedProviders := 0 }
    let r := acQueue.foldl (runStep provider) (c0, [])
    some ({ s with inAsyncTick := false }, r.1, r.2)

/-- `loadContext(ctx)`: push the active context, make `ctx` active,
mirror it into the Status Word.  A context without a `_asyncQueue`
property is left alone (early return). -/
def loadContext (s : GlobalState) (ctx : Context) : GlobalState :=
  match ctx._asyncQueue with
  | none => s
  | some _ =>
    { s with
      contextStack := s.activeContext :: s.contextStack
      activeContext := ctx
      asyncFlags := statusOf ctx }

/-- `unloadContext()`: pop the stack into the active context, or reset
to a fresh global context when the stack is empty; then mirror the new
active context into the Status Word. -/
def unloadContext (s : GlobalState) : GlobalState :=
  match s.contextStack with
  | c :: rest =>
    { s with activeContext := c, contextStack := rest, asyncFlags := statusOf c }
  | [] =>
    { s with activeContext := globalContext, asyncFlags := statusOf globalContext }

/-- `loadAsyncQueue(ctx)`.  A present-but-empty queue returns before
`loadContext`; an absent queue makes `loadContext` return without
pushing and then the before-phase guard reads `undefined & undefined`,
which is `0`, so it also returns.  Otherwise push, and run the
`before` callbacks of the listeners whose masks match the provider when
the aggregate guard passes. -/
def loadAsyncQueue (s : GlobalState) (ctx : Context) : GlobalState × List Event :=
  match ctx._asyncQueue with
  | none => (loadContext s ctx, [])
  | some [] => (s, [])
  | some q =>
    let s1 := loadContext s ctx
    if Nat.land ctx._asyncProvider ctx._asyncWatchedProviders = 0 ∨
       Nat.land ctx._asyncCallbackFlags HAS_BEFORE_AL = 0 then (s1, [])
    else
      let evs := q.filterMap (fun item =>
        if Nat.land ctx._asyncProvider item.watched_providers ≠ 0 ∧
           Nat.land item.callback_flags HAS_BEFORE_AL ≠ 0 then
          some (Event.beforeEv item.uid)
        else none)
      ({ s1 with inAsyncTick := false }, evs)

/-- `unloadAsyncQueue(ctx)`: run matching `after` callbacks when the
aggregate guard passes, then pop via `unloadContext` in either case.
The `before`/`after` callbacks' return values are discarded by the
source; the event log records the invocations. -/
def unloadAsyncQueue (s : GlobalState) (ctx : Context) : GlobalState × List Event :=
  if Nat.land ctx._asyncProvider ctx._asyncWatchedProviders = 0 ∨
     Nat.land ctx._asyncCallbackFlags HAS_AFTER_AL = 0 then
    (unloadContext s, [])
  else
    let evs := ctx.queueD.filterMap (fun item =>
      if Nat.land ctx._asyncProvider item.watched_providers ≠ 0 ∧
         Nat.land item.callback_flags HAS_AFTER_AL ≠ 0 then
        some (Event.afterEv item.uid)
      else none)
    (unloadContext { s with inAsyncTick := false }, evs)

/-- The `errorHandler` loop: invoke the `error` callback of every
listener whose flags contain ERROR (no provider filter), OR the truthy
returns into `handled`.  If an invocation throws, the `finally` block
emits the exit notification and the exception propagates: the
remaining listeners are skipped and the result is `Except.error`. -/
def errorLoop (er : JSVal) (d : List (Nat × JSVal)) :
    List AsyncListener → Bool → List Event × Except Unit Bool
  | [], handled => ([], Except.ok handled)
  | item :: rest, handled =>
    if Nat.land item.callback_flags HAS_ERROR_AL = 0 then
      errorLoop er d rest handled
    else
      match item.error (dataGet d item.uid) er with
      | Except.ok v =>
        let r := errorLoop er d rest (v.truthy || handled)
        (Event.errorEv item.uid :: r.1, r.2)
      | Except.error _ =>
        ([Event.errorEv item.uid, Event.exitEmit 1], Except.error ())

/-- `errorHandler(er)`.  Guard: recursion through `inErrorTick`, or no
ERROR bit in the active context's aggregate, returns `false` at once.
Otherwise run the loop with `inErrorTick` set.  If a callback threw,
the exception propagates with `inErrorTick` still set and
`process._exiting` set (the `Except.error` result).  Otherwise clear
`inErrorTick`, pop via `unloadContext`, and return
`handled && !inAsyncTick`. -/
def errorHandler (s : GlobalState) (er : JSVal) :
    GlobalState × List Event × Except Unit Bool :=
  if s.inErrorTick = true ∨
     Nat.land s.activeContext._asyncCallbackFlags HAS_ERROR_AL = 0 then
    (s, [], Except.ok false)
  else
    let ac := s.activeContext
    let r := errorLoop er ac._asyncData ac.queueD false
    match r.2 with
    | Except.error _ =>
      ({ s with inErrorTick := true, exiting := true }, r.1, Except.error ())
    | Except.ok handled =>
      (unloadContext { s with inErrorTick := false }, r.1,
       Except.ok (handled && !s.inAsyncTick))

/-- `addListenerQueueItem(al)`: append to the active context's queue,
store the listener's data in its slot, accumulate both aggregates. -/
def addListenerQueueItem (s : GlobalState) (al : AsyncListener) : GlobalState :=
  let ac := s.activeContext
  { s with activeContext := { ac with
      _asyncQueue := some (ac.queueD ++ [al])
      _asyncData := dataSet ac._asyncData al.uid al.data
      _asyncCallbackFlags := Nat.lor ac._asyncCallbackFlags al.callback_flags
      _asyncWatchedProviders := Nat.lor ac._asyncWatchedProviders al.watched_providers } }

/-- `addAsyncListener(al)` for an `AsyncListener` instance (a plain
callbacks object is first run through `createAsyncListener`, modelled
by `mkAsyncListener`): attach unless the uid's slot is already present,
then refresh the watched-providers and queue-length Status Word
slots. -/
def addAsyncListener (s : GlobalState) (al : AsyncListener) : GlobalState :=
  if dataGet s.activeContext._asyncData al.uid = JSVal.undef then
    let s1 := addListenerQueueItem s al
    { s1 with asyncFlags := { s1.asyncFlags with
        kWatchedProviders := s1.activeContext._asyncWatchedProviders
        kActiveAsyncQueueLength := s1.activeContext.queueD.length } }
  else s

/-- OR-fold of the watch masks of a listener list. -/
def foldWatched (q : List AsyncListener) : Nat :=
  q.foldl (fun acc l => Nat.lor acc l.watched_providers) 0

/-- OR-fold of the callback flags of a listener list. -/
def foldFlags (q : List AsyncListener) : Nat :=
  q.foldl (fun acc l => Nat.lor acc l.callback_flags) 0

/-- `removeAL(ctx, al)`: skip when the uid's slot is absent; otherwise
splice out every queue entry that is the listener (the source compares
object identity; listener uids are process-unique, so uid equality
coincides), clear its slot, and recompute both aggregates by OR-folding
the survivors.  The optional `_removeAsyncQueue` teardown hook is an
external callback with no effect on tracker state. -/
def removeAL (ctx : Context) (al : AsyncListener) : Context :=
  if dataGet ctx._asyncData al.uid = JSVal.undef then ctx
  else
    let q := ctx.queueD
    let q2 := q.filter (fun item => item.uid != al.uid)
    let d2 := if q.any (fun item => item.uid == al.uid) then
        dataSet ctx._asyncData al.uid JSVal.undef
      else ctx._asyncData
    { ctx with
      _asyncQueue := some q2
      _asyncData := d2
      _asyncCallbackFlags := foldFlags q2
      _asyncWatchedProviders := foldWatched q2 }

/-- `removeAsyncListener(al)`: remove from the active context, refresh
the watched-providers and queue-length Status Word slots, then remove
from every context suspended on the stack. -/
def removeAsyncListener (s : GlobalState) (al : AsyncListener) : GlobalState :=
  let ac := removeAL s.activeContext al
  { s with
    activeContext := ac
    asyncFlags := { s.asyncFlags with
      kWatchedProviders := ac._asyncWatchedProviders
      kActiveAsyncQueueLength := ac.queueD.length }
    contextStack := s.contextStack.map (fun c => removeAL c al) }

/-! ## Claim-level definitions

These phrase properties in the specification's words, to be compared
with the source-translated operations above. -/

/-- The storage value the CREATE phase gives a listener's slot, as the
spec words it: the initial data when there is no `create` callback or
the provider misses the watch mask, otherwise the callback's return
unless that return is `undefined`. -/
def claimSlotValue (provider : Nat) (L : AsyncListener) : JSVal :=
  if Nat.land L.callback_flags HAS_CREATE_AL = 0 ∨
     Nat.land provider L.watched_providers = 0 then L.data
  else
    let v := L.create L.data (PROVIDER_MAP provider)
    if v = JSVal.undef then L.data else v

/-- Whether the error phase invokes this listener and the invocation
throws. -/
def errThrew (d : List (Nat × JSVal)) (er : JSVal) (L : AsyncListener) : Bool :=
  Nat.land L.callback_flags HAS_ERROR_AL != 0 &&
    (match L.error (dataGet d L.uid) er with
     | Except.error _ => true
     | Except.ok _ => false)

/-- Whether the error phase invokes this listener and the invocation
returns a truthy value. -/
def errTruthy (d : List (Nat × JSVal)) (er : JSVal) (L : AsyncListener) : Bool :=
  Nat.land L.callback_flags HAS_ERROR_AL != 0 &&
    (match L.error (dataGet d L.uid) er with
     | Except.error _ => false
     | Except.ok v => v.truthy)

/-- The return of `errorHandler` as the spec claims it: `false` under
the entry guard, otherwise (when no error callback throws)
`handled && !inAsyncTick` with `handled` true exactly when some invoked
error callback returned truthy. -/
def claimErrorReturn (s : GlobalState) (er : JSVal) : Except Unit Bool :=
  if s.inErrorTick = true ∨
     Nat.land s.activeContext._asyncCallbackFlags HAS_ERROR_AL = 0 then
    Except.ok false
  else if s.activeContext.queueD.any (errThrew s.activeContext._asyncData er) then
    Except.error ()
  else
    Except.ok (s.activeContext.queueD.any (errTruthy s.activeContext._asyncData er)
      && !s.inAsyncTick)

/-- Claim-level Status Word invariant: the three slots mirror the
active context. -/
def StatusOK (s : GlobalState) : Prop :=
  s.asyncFlags = statusOf s.activeContext

/-- Claim-level per-context well-formedness at a uid: slot presence
matches queue membership, and the aggregates are OR-folds of the
queue. -/
def ctxInvAt (c : Context) (u : Nat) : Prop :=
  (dataGet c._asyncData u ≠ JSVal.undef ↔ ∃ l ∈ c.queueD, l.uid = u) ∧
  c._asyncWatchedProviders = foldWatched c.queueD ∧
  c._asyncCallbackFlags = foldFlags c.queueD

/-! ## Helper lemmas -/

theorem dataGet_dataSet_self (d : List (Nat × JSVal)) (u : Nat) (v : JSVal) :
    dataGet (dataSet d u v) u = v := by
  simp [dataGet, dataSet]

theorem dataGet_dataSet_ne (d : List (Nat × JSVal)) (u u2 : Nat) (v : JSVal)
    (h : u ≠ u2) : dataGet (dataSet d u v) u2 = dataGet d u2 := by
  simp [dataGet, dataSet, h]

theorem runStep_queue (p : Nat) (acc : Context × List Event) (item : AsyncListener) :
    ((runStep p acc item).1)._asyncQueue = some (acc.1.queueD ++ [item]) := by
  unfold runStep
  split <;> rfl

theorem runStep_flags (p : Nat) (acc : Context × List Event) (item : AsyncListener) :
    ((runStep p acc item).1)._asyncCallbackFlags = acc.1._asyncCallbackFlags := by
  unfold runStep
  split <;> rfl

theorem runStep_data (p : Nat) (acc : Context × List Event) (item : AsyncListener) :
    ((runStep p acc item).1)._asyncData =
      dataSet acc.1._asyncData item.uid (claimSlotValue p item) := by
  unfold runStep claimSlotValue
  split <;> rfl

theorem errorLoop_result (er : JSVal) (d : List (Nat × JSVal)) (q : List AsyncListener) :
    ∀ h : Bool, (errorLoop er d q h).2 =
      if q.any (errThrew d er) then Except.error ()
      else Except.ok (h || q.any (errTruthy d er)) := by
  induction q with
  | nil => intro h; simp [errorLoop]
  | cons item rest ih =>
    intro h
    by_cases hf : Nat.land item.callback_flags HAS_ERROR_AL = 0
    · simp [errorLoop, hf, errThrew, errTruthy, ih h]
    · cases heq : item.error (dataGet d item.uid) er with
      | ok v =>
        simp [errorLoop, hf, heq, errThrew, errTruthy, ih (v.truthy || h)]
        split
        · rfl
        · have hb : (item.callback_flags.land HAS_ERROR_AL != 0) = true := by
            simpa using hf
          rw [hb]
          cases v.truthy <;> cases h <;> simp [Bool.or_assoc, Bool.or_comm, Bool.or_left_comm]
      | error e =>
        simp [errorLoop, hf, heq, errThrew, errTruthy]

/-- C3: the value `errorHandler` returns is, in every case, the one the
spec claims: `false` under the entry guard, otherwise (when no invoked
error callback throws) `handled && !inAsyncTick` where `handled` is
true exactly when some invoked error callback returned truthy. -/
theorem errorHandler_return_spec (s : GlobalState) (er : JSVal) :
    (errorHandler s er).2.2 = claimErrorReturn s er := by
  by_cases hg : s.inErrorTick = true ∨
      Nat.land s.activeContext._asyncCallbackFlags HAS_ERROR_AL = 0
  · simp [errorHandler, claimErrorReturn, hg]
  · have hres := errorLoop_result er s.activeContext._asyncData s.activeContext.queueD false
    by_cases ht : s.activeContext.queueD.any (errThrew s.activeContext._asyncData er) = true
    · rw [if_pos ht] at hres
      simp [errorHandler, claimErrorReturn, hg, ht, hres]
    · rw [if_neg ht] at hres
      simp [errorHandler, claimErrorReturn, hg, ht, hres]

/-- C8: for a context whose listener sequence is present but empty,
`loadAsyncQueue` returns without pushing the stack: the active context,
the context stack and the Status Word are unchanged and no `before`
callback fires (empty event log). -/
theorem loadAsyncQueue_empty_noop (s : GlobalState) (ctx : Context)
    (h : ctx._asyncQueue = some []) : loadAsyncQueue s ctx = (s, []) := by
  simp [loadAsyncQueue, h]

theorem loadAsyncQueue_empty_noop_witness :
    loadAsyncQueue initialState globalContext = (initialState, []) :=
  loadAsyncQueue_empty_noop initialState globalContext rfl

theorem runFold_flags (p : Nat) (q : List AsyncListener) :
    ∀ acc : Context × List Event,
      ((q.foldl (runStep p) acc).1)._asyncCallbackFlags = acc.1._asyncCallbackFlags := by
  induction q with
  | nil => intro acc; rfl
  | cons x rest ih => intro acc; rw [List.foldl_cons, ih, runStep_flags]

/-- C4: `runAsyncQueue` copies the active context's
`callback_flag_aggregate` into the new context wholesale (it is not
recomputed from the appended listeners), so in particular the ERROR bit
propagates to the child even when no listener matches the provider. -/
theorem runAsyncQueue_flag_aggregate (s : GlobalState) (p : Nat)
    (s2 : GlobalState) (c : Context) (evs : List Event)
    (hr : runAsyncQueue s p = some (s2, c, evs)) :
    c._asyncCallbackFlags = s.activeContext._asyncCallbackFlags ∧
    (Nat.land s.activeContext._asyncCallbackFlags HAS_ERROR_AL ≠ 0 →
      Nat.land c._asyncCallbackFlags HAS_ERROR_AL ≠ 0) := by
  unfold runAsyncQueue at hr
  by_cases hlen : s.activeContext.queueD.length = 0
  · simp [hlen] at hr
  · simp [hlen] at hr
    have hfst := congrArg Prod.fst hr.2
    dsimp at hfst
    have hc : c._asyncCallbackFlags = s.activeContext._asyncCallbackFlags := by
      rw [← hfst, runFold_flags]
    exact ⟨hc, fun hne => hc ▸ hne⟩

theorem runFold_queue (p : Nat) (q : List AsyncListener) :
    ∀ (acc : Context × List Event) (l0 : List AsyncListener),
      acc.1._asyncQueue = some l0 →
      ((q.foldl (runStep p) acc).1)._asyncQueue = some (l0 ++ q) := by
  induction q with
  | nil => intro acc l0 h; simpa using h
  | cons x rest ih =>
    intro acc l0 h
    rw [List.foldl_cons]
    have h2 : ((runStep p acc x).1)._asyncQueue = some (l0 ++ [x]) := by
      rw [runStep_queue]; simp [Context.queueD, h]
    rw [ih _ _ h2]
    simp

theorem runFold_data_notmem (p : Nat) (q : List AsyncListener) :
    ∀ (acc : Context × List Event) (u : Nat), (∀ item ∈ q, item.uid ≠ u) →
      dataGet ((q.foldl (runStep p) acc).1)._asyncData u = dataGet acc.1._asyncData u := by
  induction q with
  | nil => intro acc u _; rfl
  | cons x rest ih =>
    intro acc u hu
    rw [List.foldl_cons, ih _ u (fun i hi => hu i (List.mem_cons_of_mem x hi)),
        runStep_data, dataGet_dataSet_ne]
    exact hu x (List.mem_cons_self x rest)

theorem runFold_data_mem (p : Nat) (q : List AsyncListener) :
    ∀ (acc : Context × List Event) (L : AsyncListener), L ∈ q →
      (q.map AsyncListener.uid).Nodup →
      dataGet ((q.foldl (runStep p) acc).1)._asyncData L.uid = claimSlotValue p L := by
  induction q with
  | nil => intro acc L h _; exact absurd h (List.not_mem_nil L)
  | cons x rest ih =>
    intro acc L hL hnd
    rw [List.map_cons, List.nodup_cons] at hnd
    rcases List.mem_cons.mp hL with rfl | hL2
    · rw [List.foldl_cons, runFold_data_notmem p rest _ L.uid ?uids, runStep_data,
          dataGet_dataSet_self]
      case uids =>
        intro item hi heq
        exact hnd.1 (heq ▸ List.mem_map_of_mem AsyncListener.uid hi)
    · rw [List.foldl_cons]
      exact ih _ L hL2 hnd.2

/-- C1: when `runAsyncQueue` completes (active listener sequence
non-empty), every listener of the active context is appended to the
new context's queue in install order, and each listener's storage slot
receives its initial data when it has no `create` callback or the
provider misses its watch mask, and otherwise the `create` return
value unless that return is `undefined`, in which case the initial
data. -/
theorem runAsyncQueue_create_spec (s : GlobalState) (p : Nat) (q : List AsyncListener)
    (hq : s.activeContext._asyncQueue = some q)
    (hnd : (q.map AsyncListener.uid).Nodup)
    (s2 : GlobalState) (c : Context) (evs : List Event)
    (hr : runAsyncQueue s p = some (s2, c, evs)) :
    c._asyncQueue = some q ∧
    ∀ L ∈ q, dataGet c._asyncData L.uid = claimSlotValue p L := by
  have hqd : s.activeContext.queueD = q := by simp [Context.queueD, hq]
  unfold runAsyncQueue at hr
  rw [hqd] at hr
  by_cases hlen : q.length = 0
  · simp [hlen] at hr
  · simp [hlen] at hr
    have hfst := congrArg Prod.fst hr.2
    dsimp at hfst
    constructor
    · rw [← hfst]
      have := runFold_queue p q (⟨[], some [], 0, p, s.activeContext._asyncCallbackFlags⟩, []) [] rfl
      simpa using this
    · intro L hL
      rw [← hfst]
      exact runFold_data_mem p q _ L hL hnd

/-! ## Concrete fixtures used by witnesses and counterexamples -/

def wCbs : Callbacks :=
  { create := some (fun _ _ => JSVal.num 42)
    error := some (fun _ _ => Except.ok (JSVal.bool true)) }

def wL : AsyncListener := mkAsyncListener wCbs (JSVal.num 7) (some 1024) 1

def wS : GlobalState := addAsyncListener initialState wL

def wRes : Option (GlobalState × Context × List Event) := runAsyncQueue wS 1024

def wS2 : GlobalState :=
  match wRes with
  | some r => r.1
  | none => initialState

def wCtx : Context :=
  match wRes with
  | some r => r.2.1
  | none => globalContext

def wEvs : List Event :=
  match wRes with
  | some r => r.2.2
  | none => []

theorem wRes_eq : runAsyncQueue wS 1024 = some (wS2, wCtx, wEvs) := rfl

theorem runAsyncQueue_create_spec_witness :
    wCtx._asyncQueue = some [wL] ∧ dataGet wCtx._asyncData wL.uid = claimSlotValue 1024 wL := by
  have h := runAsyncQueue_create_spec wS 1024 [wL] rfl (by decide) wS2 wCtx wEvs wRes_eq
  exact ⟨h.1, h.2 wL (List.mem_singleton_self wL)⟩

theorem runAsyncQueue_flag_aggregate_witness :
    wCtx._asyncCallbackFlags = wS.activeContext._asyncCallbackFlags :=
  (runAsyncQueue_flag_aggregate wS 1024 wS2 wCtx wEvs wRes_eq).1

theorem land_allones (x : Nat) (h : x < 4294967296) : Nat.land 4294967295 x = x := by
  have h32 : (4294967295 : Nat) = 2 ^ 32 - 1 := by norm_num
  show 4294967295 &&& x = x
  rw [Nat.and_comm, h32, Nat.and_pow_two_sub_one_eq_mod, Nat.mod_eq_of_lt h]

/-- C9 (amended): for every listener built by the constructor whose
watch mask is non-zero, the bitwise AND of the TICK/NEXTTICK sentinel
(all bits set) with the mask is non-zero, so the provider filter of the
create, before and after phases never excludes such a listener.  A
listener constructed with watch mask 0 is excluded; see the
counterexample. -/
theorem nexttick_matches_nonzero_mask (cbs : Callbacks) (d : JSVal)
    (p : Option Nat) (uid : Nat)
    (h : (mkAsyncListener cbs d p uid).watched_providers ≠ 0) :
    Nat.land ASYNC_PROVIDERS_NEXTTICK (mkAsyncListener cbs d p uid).watched_providers ≠ 0 := by
  have hlt : (mkAsyncListener cbs d p uid).watched_providers < 4294967296 := by
    cases p with
    | none => simp [mkAsyncListener]
    | some v => simpa [mkAsyncListener] using Nat.mod_lt v (by norm_num)
  show Nat.land 4294967295 (mkAsyncListener cbs d p uid).watched_providers ≠ 0
  rw [land_allones _ hlt]
  exact h

theorem nexttick_matches_nonzero_mask_witness :
    Nat.land ASYNC_PROVIDERS_NEXTTICK
      (mkAsyncListener wCbs (JSVal.num 7) (some 1024) 2).watched_providers ≠ 0 :=
  nexttick_matches_nonzero_mask wCbs (JSVal.num 7) (some 1024) 2 (by decide)

def cx9Cbs : Callbacks := { create := some (fun _ _ => JSVal.num 5) }

def cx9L : AsyncListener := mkAsyncListener cx9Cbs (JSVal.num 7) (some 0) 3

def cx9S : GlobalState := addAsyncListener initialState cx9L

/-- C9 counterexample: a listener constructed with watch mask 0 (the
`NONE` provider value, accepted by the constructor's `provider >>> 0`
coercion) has TICK AND mask equal to 0, and a create with the
TICK/NEXTTICK provider does exclude it: its slot receives the initial
data rather than the create callback's return, and its create callback
never fires (empty event log). -/
theorem nexttick_mask_zero_cx :
    Nat.land ASYNC_PROVIDERS_NEXTTICK cx9L.watched_providers = 0 ∧
    (runAsyncQueue cx9S ASYNC_PROVIDERS_NEXTTICK).map
      (fun r => (dataGet r.2.1._asyncData cx9L.uid, r.2.2)) =
      some (JSVal.num 7, []) := by
  constructor
  · decide
  · rfl

theorem errorLoop_invokes (er : JSVal) (d : List (Nat × JSVal)) (L : AsyncListener)
    (post : List AsyncListener) (hL : Nat.land L.callback_flags HAS_ERROR_AL ≠ 0) :
    ∀ (pre : List AsyncListener) (h : Bool),
      (∀ M ∈ pre, Nat.land M.callback_flags HAS_ERROR_AL ≠ 0 →
        ∃ v, M.error (dataGet d M.uid) er = Except.ok v) →
      Event.errorEv L.uid ∈ (errorLoop er d (pre ++ L :: post) h).1 := by
  intro pre
  induction pre with
  | nil =>
    intro h _
    cases heq : L.error (dataGet d L.uid) er <;> simp [errorLoop, hL, heq]
  | cons M pre2 ih =>
    intro h hpre
    by_cases hf : Nat.land M.callback_flags HAS_ERROR_AL = 0
    · simp only [List.cons_append, errorLoop, if_pos hf]
      exact ih h (fun M2 h2 => hpre M2 (List.mem_cons_of_mem M h2))
    · obtain ⟨v, hv⟩ := hpre M (List.mem_cons_self M pre2) hf
      simp only [List.cons_append, errorLoop, if_neg hf, hv]
      exact List.mem_cons_of_mem _
        (ih (v.truthy || h) (fun M2 h2 => hpre M2 (List.mem_cons_of_mem M h2)))

/-- C5: during the error phase past the entry guard, every listener of
the active context whose callback flags contain ERROR is invoked —
with no provider filter: nothing here relates the context's provider
to the listener's watch mask — provided no earlier error-flagged
listener's callback threw. -/
theorem errorHandler_no_provider_filter (s : GlobalState) (er : JSVal)
    (pre post : List AsyncListener) (L : AsyncListener)
    (hguard1 : s.inErrorTick = false)
    (hguard2 : Nat.land s.activeContext._asyncCallbackFlags HAS_ERROR_AL ≠ 0)
    (hq : s.activeContext.queueD = pre ++ L :: post)
    (hL : Nat.land L.callback_flags HAS_ERROR_AL ≠ 0)
    (hpre : ∀ M ∈ pre, Nat.land M.callback_flags HAS_ERROR_AL ≠ 0 →
      ∃ v, M.error (dataGet s.activeContext._asyncData M.uid) er = Except.ok v) :
    Event.errorEv L.uid ∈ (errorHandler s er).2.1 := by
  have hg : ¬(s.inErrorTick = true ∨
      Nat.land s.activeContext._asyncCallbackFlags HAS_ERROR_AL = 0) := by
    simp [hguard1, hguard2]
  have hmem := errorLoop_invokes er s.activeContext._asyncData L post hL pre false hpre
  rw [← hq] at hmem
  simp only [errorHandler, if_neg hg]
  cases hres : (errorLoop er s.activeContext._asyncData s.activeContext.queueD false).2 <;>
    simp [hres, hmem]

theorem errorHandler_no_provider_filter_witness :
    Event.errorEv wL.uid ∈ (errorHandler wS (JSVal.num 0)).2.1 :=
  errorHandler_no_provider_filter wS (JSVal.num 0) [] [] wL rfl (by decide) rfl (by decide)
    (fun M hM _ => absurd hM (List.not_mem_nil M))

theorem errorLoop_throw_exit (er : JSVal) (d : List (Nat × JSVal)) :
    ∀ (q : List AsyncListener) (h : Bool),
      (errorLoop er d q h).2 = Except.error () →
      Event.exitEmit 1 ∈ (errorLoop er d q h).1 := by
  intro q
  induction q with
  | nil => intro h hq; simp [errorLoop] at hq
  | cons item rest ih =>
    intro h hq
    by_cases hf : Nat.land item.callback_flags HAS_ERROR_AL = 0
    · simp only [errorLoop, if_pos hf] at hq ⊢
      exact ih h hq
    · cases heq : item.error (dataGet d item.uid) er with
      | ok v =>
        simp only [errorLoop, if_neg hf, heq] at hq ⊢
        exact List.mem_cons_of_mem _ (ih _ hq)
      | error e =>
        simp [errorLoop, hf, heq]

theorem unloadContext_inErrorTick (s : GlobalState) :
    (unloadContext s).inErrorTick = s.inErrorTick := by
  unfold unloadContext
  cases s.contextStack <;> rfl

/-- C10: if a listener's error callback throws during `errorHandler`,
the exception propagates out (the `Except.error` result) with the exit
notification already emitted and the exit-in-progress flag set, and
`inErrorTick` is left set; any call of `errorHandler` in a state with
`inErrorTick` set returns `false` and changes nothing, and no other
tracker operation touches `inErrorTick`, so no later error is ever
reported handled. -/
theorem errorHandler_throw_poisons :
    (∀ (s : GlobalState) (er : JSVal) (s2 : GlobalState) (evs : List Event),
       errorHandler s er = (s2, evs, Except.error ()) →
       s2.inErrorTick = true ∧ s2.exiting = true ∧ Event.exitEmit 1 ∈ evs) ∧
    (∀ (s : GlobalState) (er : JSVal), s.inErrorTick = true →
       errorHandler s er = (s, [], Except.ok false)) ∧
    (∀ (s : GlobalState) (p : Nat) (r : GlobalState × Context × List Event),
       runAsyncQueue s p = some r → r.1.inErrorTick = s.inErrorTick) ∧
    (∀ (s : GlobalState) (c : Context),
       (loadAsyncQueue s c).1.inErrorTick = s.inErrorTick) ∧
    (∀ (s : GlobalState) (c : Context),
       (unloadAsyncQueue s c).1.inErrorTick = s.inErrorTick) ∧
    (∀ (s : GlobalState) (al : AsyncListener),
       (addAsyncListener s al).inErrorTick = s.inErrorTick) ∧
    (∀ (s : GlobalState) (al : AsyncListener),
       (removeAsyncListener s al).inErrorTick = s.inErrorTick) := by
  refine ⟨?throw, ?guard, ?run, ?load, ?unload, ?add, ?remove⟩
  case throw =>
    intro s er s2 evs h
    by_cases hg : s.inErrorTick = true ∨
        Nat.land s.activeContext._asyncCallbackFlags HAS_ERROR_AL = 0
    · simp [errorHandler, hg] at h
    · cases hres : (errorLoop er s.activeContext._asyncData s.activeContext.queueD false).2 with
      | ok v => simp [errorHandler, hg, hres] at h
      | error e =>
        simp only [errorHandler, if_neg hg, hres] at h
        rw [Prod.ext_iff, Prod.ext_iff] at h
        dsimp at h
        obtain ⟨h1, h2, h3⟩ := h
        refine ⟨?k1, ?k2, ?k3⟩
        case k1 => rw [← h1]
        case k2 => rw [← h1]
        case k3 =>
          rw [← h2]
          exact errorLoop_throw_exit er s.activeContext._asyncData
            s.activeContext.queueD false (by rw [hres])
  case guard => intro s er h; simp [errorHandler, h]
  case run =>
    intro s p r h
    unfold runAsyncQueue at h
    by_cases hlen : s.activeContext.queueD.length = 0
    · simp [hlen] at h
    · simp [hlen] at h
      rw [← h]
  case load =>
    intro s c
    unfold loadAsyncQueue
    cases hq : c._asyncQueue with
    | none => simp [loadContext, hq]
    | some q =>
      cases q with
      | nil => rfl
      | cons x xs =>
        dsimp only
        split
        · simp [loadContext, hq]
        · simp [loadContext, hq]
  case unload =>
    intro s c
    unfold unloadAsyncQueue
    split
    · rw [unloadContext_inErrorTick]
    · rw [unloadContext_inErrorTick]
  case add =>
    intro s al
    unfold addAsyncListener
    split
    · rfl
    · rfl
  case remove => intro s al; rfl

def sTick : GlobalState := { initialState with inErrorTick := true }

theorem errorHandler_throw_poisons_witness :
    errorHandler sTick (JSVal.num 0) = (sTick, [], Except.ok false) :=
  errorHandler_throw_poisons.2.1 sTick (JSVal.num 0) rfl

theorem unloadAsyncQueue_active_flags (s : GlobalState) (ctx : Context) :
    (unloadAsyncQueue s ctx).1.activeContext = (unloadContext s).activeContext ∧
    (unloadAsyncQueue s ctx).1.asyncFlags = (unloadContext s).asyncFlags := by
  unfold unloadAsyncQueue
  split
  · exact ⟨rfl, rfl⟩
  · unfold unloadContext
    cases s.contextStack <;> exact ⟨rfl, rfl⟩

theorem loadAsyncQueue_stack_cons (s : GlobalState) (ctx : Context)
    (x : AsyncListener) (xs : List AsyncListener)
    (hq : ctx._asyncQueue = some (x :: xs)) :
    (loadAsyncQueue s ctx).1.contextStack = s.activeContext :: s.contextStack := by
  unfold loadAsyncQueue
  rw [hq]
  dsimp only
  split
  · simp [loadContext, hq]
  · simp [loadContext, hq]

/-- C2 (amended): for a context whose listener sequence is present and
non-empty, and from a state whose Status Word mirrors the active
context, `loadAsyncQueue` then `unloadAsyncQueue` restores the active
context and the Status Word to their pre-call values.  The claim as
stated over every context fails for an empty listener sequence, where
the load does not push but the unload still pops: see the
counterexample. -/
theorem load_unload_restores (s : GlobalState) (ctx : Context)
    (x : AsyncListener) (xs : List AsyncListener)
    (hq : ctx._asyncQueue = some (x :: xs))
    (hst : s.asyncFlags = statusOf s.activeContext) :
    ((unloadAsyncQueue (loadAsyncQueue s ctx).1 ctx).1).activeContext = s.activeContext ∧
    ((unloadAsyncQueue (loadAsyncQueue s ctx).1 ctx).1).asyncFlags = s.asyncFlags := by
  have hstk := loadAsyncQueue_stack_cons s ctx x xs hq
  have hu := unloadAsyncQueue_active_flags (loadAsyncQueue s ctx).1 ctx
  constructor
  · rw [hu.1]
    simp only [unloadContext, hstk]
  · rw [hu.2]
    simp only [unloadContext, hstk]
    rw [hst]

theorem load_unload_restores_witness :
    ((unloadAsyncQueue (loadAsyncQueue wS wCtx).1 wCtx).1).activeContext = wS.activeContext ∧
    ((unloadAsyncQueue (loadAsyncQueue wS wCtx).1 wCtx).1).asyncFlags = wS.asyncFlags :=
  load_unload_restores wS wCtx wL [] rfl (by decide)

def cx2B : Context := { globalContext with _asyncProvider := 1024 }

def cx2S : GlobalState := { initialState with contextStack := [cx2B] }

/-- C2 counterexample: with a context suspended on the stack, loading
and unloading a context whose listener sequence is present but empty
does not restore the active context (nor the Status Word): the load is
a no-op but the unload still pops the suspended context into the
active slot. -/
theorem load_unload_cx :
    ¬(((unloadAsyncQueue (loadAsyncQueue cx2S globalContext).1 globalContext).1).activeContext
        = cx2S.activeContext ∧
      ((unloadAsyncQueue (loadAsyncQueue cx2S globalContext).1 globalContext).1).asyncFlags
        = cx2S.asyncFlags) := by
  intro h
  exact absurd (congrArg Context._asyncProvider h.1) (by decide)

theorem statusOK_unloadContext (s : GlobalState) : StatusOK (unloadContext s) := by
  unfold unloadContext StatusOK
  cases s.contextStack <;> rfl

theorem removeAL_provider (c : Context) (al : AsyncListener) :
    (removeAL c al)._asyncProvider = c._asyncProvider := by
  unfold removeAL
  split <;> rfl

/-- C6: at every quiescent point — initially, and after each completed
`runAsyncQueue` (create), `loadAsyncQueue`, `unloadAsyncQueue`,
completed `errorHandler`, `addAsyncListener` (attach) or
`removeAsyncListener` (detach) — the three Status Word slots equal the
active context's provider, listener-queue length and watched-provider
aggregate. -/
theorem status_invariant :
    StatusOK initialState ∧
    (∀ (s : GlobalState) (p : Nat) (s2 : GlobalState) (c : Context) (evs : List Event),
       StatusOK s → runAsyncQueue s p = some (s2, c, evs) → StatusOK s2) ∧
    (∀ (s : GlobalState) (c : Context), StatusOK s → StatusOK (loadAsyncQueue s c).1) ∧
    (∀ (s : GlobalState) (c : Context), StatusOK (unloadAsyncQueue s c).1) ∧
    (∀ (s : GlobalState) (er : JSVal) (s2 : GlobalState) (evs : List Event) (b : Bool),
       StatusOK s → errorHandler s er = (s2, evs, Except.ok b) → StatusOK s2) ∧
    (∀ (s : GlobalState) (al : AsyncListener), StatusOK s → StatusOK (addAsyncListener s al)) ∧
    (∀ (s : GlobalState) (al : AsyncListener), StatusOK s → StatusOK (removeAsyncListener s al)) := by
  refine ⟨rfl, ?run, ?load, ?unload, ?err, ?add, ?remove⟩
  case run =>
    intro s p s2 c evs hs h
    unfold runAsyncQueue at h
    by_cases hlen : s.activeContext.queueD.length = 0
    · simp [hlen] at h
    · simp [hlen] at h
      rw [← h.1]
      exact hs
  case load =>
    intro s c hs
    unfold loadAsyncQueue
    cases hq : c._asyncQueue with
    | none => simpa [loadContext, hq] using hs
    | some q =>
      cases q with
      | nil => exact hs
      | cons x xs =>
        dsimp only
        split
        · simp [loadContext, hq, StatusOK]
        · simp [loadContext, hq, StatusOK]
  case unload =>
    intro s c
    unfold unloadAsyncQueue
    split
    · exact statusOK_unloadContext s
    · exact statusOK_unloadContext _
  case err =>
    intro s er s2 evs b hs h
    by_cases hg : s.inErrorTick = true ∨
        Nat.land s.activeContext._asyncCallbackFlags HAS_ERROR_AL = 0
    · simp [errorHandler, hg] at h
      rw [← h.1]
      exact hs
    · cases hres : (errorLoop er s.activeContext._asyncData s.activeContext.queueD false).2 with
      | error e => simp [errorHandler, hg, hres] at h
      | ok v =>
        simp only [errorHandler, if_neg hg, hres] at h
        rw [Prod.ext_iff, Prod.ext_iff] at h
        dsimp at h
        rw [← h.1]
        exact statusOK_unloadContext _
  case add =>
    intro s al hs
    unfold addAsyncListener
    split
    · have hk := congrArg StatusWord.kActiveAsyncContext hs
      simp [statusOf] at hk
      simp [StatusOK, statusOf, addListenerQueueItem, Context.queueD, hk]
    · exact hs
  case remove =>
    intro s al hs
    have hk := congrArg StatusWord.kActiveAsyncContext hs
    simp [statusOf] at hk
    simp [StatusOK, statusOf, removeAsyncListener, removeAL_provider, hk]

theorem status_invariant_witness : StatusOK wS :=
  status_invariant.2.2.2.2.2.1 initialState wL status_invariant.1

instance ctxInvAtDecidable (c : Context) (u : Nat) : Decidable (ctxInvAt c u) := by
  unfold ctxInvAt
  infer_instance

theorem removeAL_spec (c : Context) (al : AsyncListener) (h : ctxInvAt c al.uid) :
    dataGet (removeAL c al)._asyncData al.uid = JSVal.undef ∧
    (∀ item ∈ (removeAL c al).queueD, item.uid ≠ al.uid) ∧
    (removeAL c al)._asyncWatchedProviders = foldWatched (removeAL c al).queueD ∧
    (removeAL c al)._asyncCallbackFlags = foldFlags (removeAL c al).queueD := by
  obtain ⟨hiff, hw, hf⟩ := h
  by_cases hd : dataGet c._asyncData al.uid = JSVal.undef
  · have hre : removeAL c al = c := by unfold removeAL; rw [if_pos hd]
    rw [hre]
    have hnone : ∀ item ∈ c.queueD, item.uid ≠ al.uid := by
      intro item hi heq
      exact (hiff.mpr ⟨item, hi, heq⟩) hd
    exact ⟨hd, hnone, hw, hf⟩
  · have hmatch : c.queueD.any (fun item => item.uid == al.uid) = true := by
      obtain ⟨l, hl, hlu⟩ := hiff.mp hd
      exact List.any_eq_true.mpr ⟨l, hl, by simp [hlu]⟩
    unfold removeAL
    rw [if_neg hd]
    dsimp only
    rw [if_pos hmatch]
    refine ⟨dataGet_dataSet_self c._asyncData al.uid JSVal.undef, ?mem, rfl, rfl⟩
    case mem =>
      intro item hi
      have := (List.mem_filter.mp hi).2
      simpa using this

/-- C7: after `removeAsyncListener(L)`, for the active context and
every context suspended on the stack (given each satisfied the
slot/queue/aggregate well-formedness for `L.uid` beforehand): `L.uid`
is absent from its slots, no listener with `L.uid` remains in its
queue, and both aggregates equal the OR-fold of the surviving
listeners. -/
theorem removeListener_scrubs (s : GlobalState) (al : AsyncListener)
    (h : ∀ c ∈ s.activeContext :: s.contextStack, ctxInvAt c al.uid) :
    ∀ c ∈ (removeAsyncListener s al).activeContext ::
        (removeAsyncListener s al).contextStack,
      dataGet c._asyncData al.uid = JSVal.undef ∧
      (∀ item ∈ c.queueD, item.uid ≠ al.uid) ∧
      c._asyncWatchedProviders = foldWatched c.queueD ∧
      c._asyncCallbackFlags = foldFlags c.queueD := by
  intro c hc
  rcases List.mem_cons.mp hc with rfl | hc2
  · exact removeAL_spec s.activeContext al (h s.activeContext (List.mem_cons_self _ _))
  · have hc3 : c ∈ s.contextStack.map (fun c0 => removeAL c0 al) := hc2
    obtain ⟨c0, hc0, rfl⟩ := List.mem_map.mp hc3
    exact removeAL_spec c0 al (h c0 (List.mem_cons_of_mem _ hc0))

theorem removeListener_scrubs_witness :
    dataGet (removeAsyncListener wS wL).activeContext._asyncData wL.uid = JSVal.undef ∧
    (removeAsyncListener wS wL).activeContext._asyncWatchedProviders =
      foldWatched (removeAsyncListener wS wL).activeContext.queueD ∧
    (removeAsyncListener wS wL).activeContext._asyncCallbackFlags =
      foldFlags (removeAsyncListener wS wL).activeContext.queueD := by
  have h := removeListener_scrubs wS wL (by decide)
    (removeAsyncListener wS wL).activeContext (List.mem_cons_self _ _)
  exact ⟨h.1, h.2.2.1, h.2.2.2⟩
